import Mathlib

/-!
Verification of the retail-inventory-tracker core: a shallow embedding of the
warehouse controller (`src/warehouse/warehouse_controller.py`) and the demand
predictor (`src/ai_engine/predictor.py`), together with proofs of the ledger
invariants of the transfer and adjustment protocols and of the prediction and
reorder arithmetic.

The relational store is modelled explicitly: the `inventory` table is a list of
`InventoryRecord` rows and the `stock_movements` table a list of
`StockMovement` rows.  A `SELECT ... WHERE product_id = ? AND warehouse_id = ?`
returning `fetchone` is `List.find?` on the row key, an `UPDATE ... WHERE` is a
map over the rows matching the key, and an `INSERT` appends a row.  Timestamps
(`datetime.now()`, `CURRENT_TIMESTAMP`) are a `now : Nat` parameter threaded
through each call.  Python integers are `Int`; the float arithmetic of the
predictor is embedded over `ℚ` (the literals 0.7, 0.3, 0.8, 0.5, 0.2 of the
source are exactly representable, so `ℚ` tracks the source formulas exactly up
to float rounding error, which no verified property depends on).
-/

/-- One row of the `inventory` table (schema in `src/app.py`, lines 88-100):
key `(product_id, warehouse_id)`, a quantity, a reserved quantity
(schema default 0), reorder/max levels (schema defaults 10/1000) and a
last-updated timestamp. -/
structure InventoryRecord where
  product_id : Int
  warehouse_id : Int
  quantity : Int
  reserved_quantity : Int
  reorder_level : Int
  max_stock_level : Int
  last_updated : Nat
  deriving DecidableEq

/-- One row of the `stock_movements` table (schema in `src/app.py`,
lines 132-146): the immutable audit record of a quantity change. -/
structure StockMovement where
  product_id : Int
  warehouse_id : Int
  movement_type : String
  quantity : Int
  reference_number : String
  notes : String
  user_id : Int
  deriving DecidableEq

/-- The ledger store: the two tables the warehouse controller reads and
writes. -/
structure DB where
  inventory : List InventoryRecord
  movements : List StockMovement
  deriving DecidableEq

/-- Row keyed by `(product_id, warehouse_id)`:
the `WHERE product_id = ? AND warehouse_id = ?` predicate. -/
def invKey (r : InventoryRecord) (p w : Int) : Bool :=
  r.product_id == p && r.warehouse_id == w

/-- `SELECT ... FROM inventory WHERE product_id = ? AND warehouse_id = ?`
with `fetchone`: the first row matching the key, if any. -/
def findInv (inv : List InventoryRecord) (p w : Int) : Option InventoryRecord :=
  inv.find? (fun r => invKey r p w)

/-- `UPDATE inventory SET quantity = ?, last_updated = ? WHERE product_id = ?
AND warehouse_id = ?` (warehouse_controller.py lines 233-237): every row
matching the key gets the new quantity and timestamp; all other rows and all
other columns are untouched. -/
def updateInvQty (inv : List InventoryRecord) (p w : Int) (q : Int) (t : Nat) :
    List InventoryRecord :=
  inv.map (fun r =>
    if invKey r p w then
      { r with quantity := q, last_updated := t }
    else r)

/-- Quantity held for `(p, w)`, read as a bare number with 0 for a missing
row (used only to state conservation; the source never defaults to 0). -/
def qtyAt (inv : List InventoryRecord) (p w : Int) : Int :=
  match findInv inv p w with
  | some r => r.quantity
  | none => 0

/-- Python `x or default` on an optional string: `None` and `''` both fall
through to the default. -/
def pyOr (s : Option String) (d : String) : String :=
  match s with
  | none => d
  | some t => if t == "" then d else t

/-- Result dict of `transfer_inventory`. -/
structure TransferResult where
  success : Bool
  message : String
  transfer_reference : Option String
  deriving DecidableEq

/-- `f"TRANSFER-{datetime.now().strftime(...)}"` (line 266): the reference
number generated from the call's timestamp. -/
def transferReference (now : Nat) : String :=
  "TRANSFER-" ++ toString now

/-- `WarehouseController.transfer_inventory`
(warehouse_controller.py lines 176-307), embedded over the ledger state:

1. read the source row; missing row fails with
   "Product not found in source warehouse" (lines 198-209);
2. `source_quantity < quantity` fails with the insufficient-inventory
   message reporting available vs requested (lines 211-217);
3. read the destination row (lines 220-225), then atomically:
   set source quantity to `source_quantity - quantity` (lines 231-237);
   if a destination row was found set its quantity to the fetched
   destination quantity plus `quantity` (lines 240-247), otherwise insert a
   destination row with the transferred quantity, inheriting
   reorder/max levels re-read from the source key with fallbacks 10/1000
   (lines 248-263; `reserved_quantity` and `last_updated` take the schema
   defaults 0 and the current timestamp);
4. append a TRANSFER_OUT movement at the source and a TRANSFER_IN movement
   at the destination, both with the transferred quantity and the one
   reference number generated for this call (lines 265-282).

The `try/except` store-failure path (lines 297-307) has no counterpart in the
pure model, where no store operation fails. -/
def transfer_inventory (db : DB) (product_id from_warehouse_id to_warehouse_id : Int)
    (quantity : Int) (user_id : Int) (notes : Option String) (now : Nat) :
    TransferResult × DB :=
  match findInv db.inventory product_id from_warehouse_id with
  | none =>
      ({ success := false
         message := "Product not found in source warehouse"
         transfer_reference := none }, db)
  | some src =>
      let source_quantity := src.quantity
      if source_quantity < quantity then
        ({ success := false
           message := "Insufficient inventory. Available: " ++ toString source_quantity
             ++ ", Requested: " ++ toString quantity
           transfer_reference := none }, db)
      else
        let dest_result := findInv db.inventory product_id to_warehouse_id
        let inv1 := updateInvQty db.inventory product_id from_warehouse_id
          (source_quantity - quantity) now
        let inv2 :=
          match dest_result with
          | some d =>
              updateInvQty inv1 product_id to_warehouse_id (d.quantity + quantity) now
          | none =>
              let reorder_info := findInv inv1 product_id from_warehouse_id
              let rl := match reorder_info with
                | some r => r.reorder_level
                | none => 10
              let ml := match reorder_info with
                | some r => r.max_stock_level
                | none => 1000
              inv1 ++ [{ product_id := product_id
                         warehouse_id := to_warehouse_id
                         quantity := quantity
                         reserved_quantity := 0
                         reorder_level := rl
                         max_stock_level := ml
                         last_updated := now }]
        let ref := transferReference now
        let outMove : StockMovement :=
          { product_id := product_id
            warehouse_id := from_warehouse_id
            movement_type := "TRANSFER_OUT"
            quantity := quantity
            reference_number := ref
            notes := "Transfer to warehouse " ++ toString to_warehouse_id ++ ". "
              ++ notes.getD ""
            user_id := user_id }
        let inMove : StockMovement :=
          { product_id := product_id
            warehouse_id := to_warehouse_id
            movement_type := "TRANSFER_IN"
            quantity := quantity
            reference_number := ref
            notes := "Transfer from warehouse " ++ toString from_warehouse_id ++ ". "
              ++ notes.getD ""
            user_id := user_id }
        ({ success := true
           message := "Successfully transferred " ++ toString quantity ++ " units"
           transfer_reference := some ref },
         { inventory := inv2
           movements := db.movements ++ [outMove, inMove] })

/-- Result dict of `adjust_inventory`. -/
structure AdjustResult where
  success : Bool
  message : String
  previous_quantity : Option Int
  new_quantity : Option Int
  reference_number : Option String
  deriving DecidableEq

/-- `f"ADJ-{datetime.now().strftime(...)}"` (line 367). -/
def adjustReference (now : Nat) : String :=
  "ADJ-" ++ toString now

/-- `WarehouseController.adjust_inventory`
(warehouse_controller.py lines 309-400): read the row for the key (missing
row fails, lines 336-342); reject an adjustment driving the quantity negative
(lines 344-353); otherwise set the quantity to `current + adjustment`
(lines 359-363) and append one `ADJUST_{adjustment_type}` movement whose
quantity is `abs(adjustment_quantity)` (lines 365-374). -/
def adjust_inventory (db : DB) (product_id warehouse_id : Int)
    (adjustment_quantity : Int) (adjustment_type : String)
    (user_id : Int) (reason : Option String) (now : Nat) :
    AdjustResult × DB :=
  match findInv db.inventory product_id warehouse_id with
  | none =>
      ({ success := false
         message := "Inventory record not found"
         previous_quantity := none
         new_quantity := none
         reference_number := none }, db)
  | some rec =>
      let current_quantity := rec.quantity
      let new_quantity := current_quantity + adjustment_quantity
      if new_quantity < 0 then
        ({ success := false
           message := "Adjustment would result in negative inventory. Current: "
             ++ toString current_quantity ++ ", Adjustment: "
             ++ toString adjustment_quantity
           previous_quantity := none
           new_quantity := none
           reference_number := none }, db)
      else
        let ref := adjustReference now
        let mv : StockMovement :=
          { product_id := product_id
            warehouse_id := warehouse_id
            movement_type := "ADJUST_" ++ adjustment_type
            quantity := |adjustment_quantity|
            reference_number := ref
            notes := pyOr reason (adjustment_type ++ " adjustment")
            user_id := user_id }
        ({ success := true
           message := "Inventory adjusted successfully. New quantity: "
             ++ toString new_quantity
           previous_quantity := some current_quantity
           new_quantity := some new_quantity
           reference_number := some ref },
         { inventory := updateInvQty db.inventory product_id warehouse_id new_quantity now
           movements := db.movements ++ [mv] })

/-- One row of the result of `InventoryPredictor._get_historical_movements`
(predictor.py lines 174-198), projected to the columns `predict_demand`
reads.  The query returns the movements of one `(product, warehouse)` pair
over the trailing window ordered `created_at DESC`, so a `List HistRow` is
always ordered newest first. -/
structure HistRow where
  movement_type : String
  quantity : ℚ
  deriving DecidableEq

/-- `np.mean` of a list (only applied to non-empty lists by the source). -/
def mean (l : List ℚ) : ℚ :=
  l.sum / l.length

/-- The population variance underlying `np.std` (predictor.py line 73):
`np.std l = Real.sqrt (popVariance l)`. -/
def popVariance (l : List ℚ) : ℚ :=
  mean (l.map (fun x => (x - mean l) ^ 2))

/-- The loop of predictor.py lines 51-54: the quantities of the rows whose
`movement_type` is `OUT` or `TRANSFER_OUT`, in row order (hence newest
first, since the history is ordered `created_at DESC`). -/
def dailyMovements (hist : List HistRow) : List ℚ :=
  (hist.filter (fun r =>
    r.movement_type == "OUT" || r.movement_type == "TRANSFER_OUT")).map
    (fun r => r.quantity)

/-- Python's `round` to an integer: round half to even. -/
def pyRoundHalfEven (q : ℚ) : ℤ :=
  let f := Int.fdiv q.num q.den
  let frac := q - (f : ℚ)
  if frac < 1 / 2 then f
  else if 1 / 2 < frac then f + 1
  else if f % 2 = 0 then f else f + 1

/-- Python's `round(x, 2)`: round half to even at two decimal places. -/
def pyRound2 (q : ℚ) : ℚ :=
  (pyRoundHalfEven (q * 100) : ℚ) / 100

/-- Result of `InventoryPredictor.predict_demand`, one constructor per shape
of dict the source returns.  In the `moving_average` branch the source also
reports `confidence = round(max(0.5, 1 - np.std(daily)/(daily_demand+1)), 2)`
(lines 73-74, 79); `np.std` is an irrational square root, so the embedding
carries the variance of the outbound quantities instead, which together with
`predicted_daily_demand` determines that confidence; no verified property
reads it.  The `error_fallback` dict (lines 85-92) answers store exceptions
and has no counterpart in the pure model. -/
inductive Prediction where
  | fallback (predicted_demand : ℚ) (confidence : ℚ) (method : String)
      (message : String)
  | moving_average (predicted_demand predicted_daily_demand : ℚ)
      (variance : ℚ) (historical_points : Nat)
  deriving DecidableEq

/-- `InventoryPredictor.predict_demand` (predictor.py lines 26-92) applied to
the fetched history (newest first):

* fewer than 7 rows before filtering: the `default_fallback` dict
  `{predicted_demand: 10, confidence: 0.3}` (lines 42-48);
* no outbound rows after filtering: the `no_outbound_data` dict
  `{predicted_demand: 5, confidence: 0.4}` (lines 56-62);
* otherwise `recent_avg` is the mean of `daily_movements[-7:]` (the LAST
  seven entries of the newest-first outbound sequence, i.e. the OLDEST seven
  in the window) or of all entries when fewer than seven,
  `overall_avg` the mean of all, `predicted_daily = 0.7*recent + 0.3*overall`,
  and the prediction is `round(predicted_daily * days, 2)` (lines 64-83). -/
def predict_demand (hist : List HistRow) (days : ℚ) : Prediction :=
  if hist.length < 7 then
    .fallback 10 (3 / 10) "default_fallback" "Insufficient historical data"
  else
    let daily := dailyMovements hist
    if daily.isEmpty then
      .fallback 5 (2 / 5) "no_outbound_data" "No outbound movement data available"
    else
      let recent_avg :=
        if 7 ≤ daily.length then mean (daily.drop (daily.length - 7)) else mean daily
      let overall_avg := mean daily
      let predicted_daily := recent_avg * (7 / 10) + overall_avg * (3 / 10)
      .moving_average (pyRound2 (predicted_daily * days)) (pyRound2 predicted_daily)
        (popVariance daily) daily.length

/-- The `predicted_demand` field read off a prediction result
(`demand_prediction['predicted_demand']`, predictor.py line 132). -/
def predictedOf : Prediction → ℚ
  | .fallback p _ _ _ => p
  | .moving_average p _ _ _ => p

/-- Result of `InventoryPredictor.get_reorder_recommendation`, one
constructor per dict shape; integer fields are the source's `round(...)`
values. -/
inductive Reorder where
  | notFound (message : String)
  | reorder (recommended_quantity : ℤ) (current_stock available_stock : ℤ)
      (predicted_demand_30 : ℤ) (safety_stock : ℤ) (urgency : String)
      (message : String)
  | noReorder (current_stock available_stock : ℤ) (predicted_demand_30 : ℤ)
      (days_until_reorder : ℤ) (message : String)
  deriving DecidableEq

/-- `InventoryPredictor.get_reorder_recommendation`
(predictor.py lines 94-172) given the fetched inventory row
`(quantity, reserved_quantity, reorder_level, max_stock_level)` and the
movement history the nested `predict_demand(product, warehouse, 30)` call
sees.  `available = quantity - reserved`; `safety_stock = 0.2 * predicted`;
if `available <= reorder_level` recommend
`round(max_stock_level * 0.8 - available)` units with urgency `high` when
`available <= reorder_level * 0.5`, else `medium` (lines 138-153); otherwise
report `days_until_reorder = round(max(1, (available - reorder_level) /
(predicted / 30)))` (lines 155-165). -/
def get_reorder_recommendation (current_qty reserved_qty reorder_level max_level : Int)
    (hist : List HistRow) : Reorder :=
  let available_qty := current_qty - reserved_qty
  let predicted_demand := predictedOf (predict_demand hist 30)
  let safety_stock := predicted_demand * (1 / 5)
  if available_qty ≤ reorder_level then
    let target_stock := (max_level : ℚ) * (4 / 5)
    let recommended_quantity := target_stock - (available_qty : ℚ)
    .reorder (pyRoundHalfEven recommended_quantity) current_qty available_qty
      (pyRoundHalfEven predicted_demand) (pyRoundHalfEven safety_stock)
      (if (available_qty : ℚ) ≤ (reorder_level : ℚ) * (1 / 2) then "high" else "medium")
      ("Reorder recommended: stock level is " ++ toString available_qty
        ++ ", below reorder level of " ++ toString reorder_level)
  else
    let days_until_reorder :=
      max 1 (((available_qty : ℚ) - (reorder_level : ℚ)) / (predicted_demand / 30))
    .noReorder current_qty available_qty (pyRoundHalfEven predicted_demand)
      (pyRoundHalfEven days_until_reorder)
      ("No reorder needed. Estimated " ++ toString (pyRoundHalfEven days_until_reorder)
        ++ " days until reorder point.")

/-- Every column of an inventory row except `quantity` and `last_updated`:
the columns no `UPDATE` of the warehouse controller ever touches. -/
def sameKeyFields (a b : InventoryRecord) : Prop :=
  a.product_id = b.product_id ∧ a.warehouse_id = b.warehouse_id ∧
  a.reserved_quantity = b.reserved_quantity ∧ a.reorder_level = b.reorder_level ∧
  a.max_stock_level = b.max_stock_level

instance (a b : InventoryRecord) : Decidable (sameKeyFields a b) := by
  unfold sameKeyFields; infer_instance

/-- Concrete source row for witnesses: product 1 at warehouse 1 holds 10
with 8 reserved. -/
def wSrc : InventoryRecord :=
  { product_id := 1, warehouse_id := 1, quantity := 10, reserved_quantity := 8,
    reorder_level := 20, max_stock_level := 200, last_updated := 0 }

/-- Concrete destination row for witnesses: product 1 at warehouse 2
holds 3. -/
def wDest : InventoryRecord :=
  { product_id := 1, warehouse_id := 2, quantity := 3, reserved_quantity := 0,
    reorder_level := 10, max_stock_level := 100, last_updated := 0 }

/-- Concrete ledger for witnesses. -/
def wDB : DB := { inventory := [wSrc, wDest], movements := [] }

/-- Fourteen outbound movements, newest first: the seven most recent moved
10 units each, the seven oldest 1 unit each. -/
def histBug : List HistRow :=
  List.replicate 7 { movement_type := "OUT", quantity := 10 } ++
    List.replicate 7 { movement_type := "OUT", quantity := 1 }

/-- Seven outbound movements of 3 units each. -/
def histFlat : List HistRow :=
  List.replicate 7 { movement_type := "OUT", quantity := 3 }

/-- Seven inbound movements: enough history, none of it outbound. -/
def histIn : List HistRow :=
  List.replicate 7 { movement_type := "IN", quantity := 4 }

/-- A record matches the key `(p, w)` exactly when its id fields are `p`
and `w`. -/
theorem invKey_iff {r : InventoryRecord} {p w : Int} :
    invKey r p w = true ↔ r.product_id = p ∧ r.warehouse_id = w := by
  simp [invKey]

/-- Setting the quantity and timestamp of a row does not change its key. -/
theorem invKey_set {r : InventoryRecord} {q : Int} {t : Nat} {p w : Int} :
    invKey { r with quantity := q, last_updated := t } p w = invKey r p w := rfl

/-- A successful keyed read certifies the key of the row it returns. -/
theorem findInv_some {inv : List InventoryRecord} {p w : Int}
    {r : InventoryRecord} (h : findInv inv p w = some r) :
    invKey r p w = true := by
  have hk := List.find?_some h
  exact hk

/-- Reading any key after an `UPDATE` returns the row the read would have
found before, with the new quantity and timestamp exactly when that row
matches the updated key. -/
theorem findInv_update (inv : List InventoryRecord) (p w q : Int) (t : Nat)
    (p' w' : Int) :
    findInv (updateInvQty inv p w q t) p' w' =
      (findInv inv p' w').map (fun r =>
        if invKey r p w then { r with quantity := q, last_updated := t } else r) := by
  have hg : ((fun r => invKey r p' w') ∘ (fun r =>
      if invKey r p w then { r with quantity := q, last_updated := t } else r)) =
      (fun r => invKey r p' w') := by
    funext r
    by_cases h : invKey r p w <;> simp [Function.comp, h, invKey_set]
  rw [updateInvQty, findInv, List.find?_map, hg, findInv]

/-- Reading after an `INSERT` (row list append). -/
theorem findInv_append (l₁ l₂ : List InventoryRecord) (p w : Int) :
    findInv (l₁ ++ l₂) p w = (findInv l₁ p w).or (findInv l₂ p w) := by
  show List.find? (fun r => invKey r p w) (l₁ ++ l₂) =
    (List.find? (fun r => invKey r p w) l₁).or (List.find? (fun r => invKey r p w) l₂)
  exact List.find?_append ..

/-- The quantity at the updated key after an `UPDATE` that found its row. -/
theorem qtyAt_update_self {inv : List InventoryRecord} {p w : Int}
    {r : InventoryRecord} (q : Int) (t : Nat)
    (h : findInv inv p w = some r) :
    qtyAt (updateInvQty inv p w q t) p w = q := by
  rw [qtyAt, findInv_update, h]
  have hk : invKey r p w = true := findInv_some h
  simp [Option.map, hk]

/-- The quantity at any other key is untouched by an `UPDATE`. -/
theorem qtyAt_update_ne {inv : List InventoryRecord} {p w p' w' : Int}
    (q : Int) (t : Nat) (hne : ¬(p' = p ∧ w' = w)) :
    qtyAt (updateInvQty inv p w q t) p' w' = qtyAt inv p' w' := by
  rw [qtyAt, qtyAt, findInv_update]
  cases hfind : findInv inv p' w' with
  | none => rfl
  | some r =>
    have h1 : r.product_id = p' ∧ r.warehouse_id = w' :=
      invKey_iff.mp (findInv_some hfind)
    have h2 : invKey r p w = false := by
      cases hb : invKey r p w with
      | false => rfl
      | true =>
        have h3 := invKey_iff.mp hb
        exact absurd ⟨h1.1 ▸ h3.1, h1.2 ▸ h3.2⟩ hne
    simp [Option.map, h2]

/-- Branch equation: a missing source row fails the transfer and returns the
store unchanged. -/
theorem transfer_eq_no_source (db : DB) (p f t q u : Int) (n : Option String)
    (now : Nat) (h : findInv db.inventory p f = none) :
    transfer_inventory db p f t q u n now =
      ({ success := false, message := "Product not found in source warehouse",
         transfer_reference := none }, db) := by
  unfold transfer_inventory
  rw [h]

/-- Branch equation: a source row holding less than the requested quantity
fails the transfer and returns the store unchanged. -/
theorem transfer_eq_insufficient (db : DB) (p f t q u : Int) (n : Option String)
    (now : Nat) (src : InventoryRecord)
    (hsrc : findInv db.inventory p f = some src) (hlt : src.quantity < q) :
    transfer_inventory db p f t q u n now =
      ({ success := false,
         message := "Insufficient inventory. Available: " ++ toString src.quantity
           ++ ", Requested: " ++ toString q,
         transfer_reference := none }, db) := by
  unfold transfer_inventory
  rw [hsrc]
  dsimp only
  rw [if_pos hlt]

/-- Branch equation: a transfer whose source holds enough stock and whose
destination row exists updates both rows and appends the movement pair. -/
theorem transfer_eq_dest_some (db : DB) (p f t q u : Int) (n : Option String)
    (now : Nat) (src d : InventoryRecord)
    (hsrc : findInv db.inventory p f = some src) (hge : ¬src.quantity < q)
    (hdest : findInv db.inventory p t = some d) :
    transfer_inventory db p f t q u n now =
      ({ success := true,
         message := "Successfully transferred " ++ toString q ++ " units",
         transfer_reference := some (transferReference now) },
       { inventory := updateInvQty (updateInvQty db.inventory p f (src.quantity - q) now)
           p t (d.quantity + q) now,
         movements := db.movements ++
           [{ product_id := p, warehouse_id := f, movement_type := "TRANSFER_OUT",
              quantity := q, reference_number := transferReference now,
              notes := "Transfer to warehouse " ++ toString t ++ ". " ++ n.getD "",
              user_id := u },
            { product_id := p, warehouse_id := t, movement_type := "TRANSFER_IN",
              quantity := q, reference_number := transferReference now,
              notes := "Transfer from warehouse " ++ toString f ++ ". " ++ n.getD "",
              user_id := u }] }) := by
  unfold transfer_inventory
  rw [hsrc]
  dsimp only
  rw [if_neg hge, hdest]

/-- Branch equation: a transfer whose source holds enough stock and whose
destination row is absent updates the source row, inserts a destination row
inheriting the source's reorder/max levels, and appends the movement pair. -/
theorem transfer_eq_dest_none (db : DB) (p f t q u : Int) (n : Option String)
    (now : Nat) (src : InventoryRecord)
    (hsrc : findInv db.inventory p f = some src) (hge : ¬src.quantity < q)
    (hdest : findInv db.inventory p t = none) :
    transfer_inventory db p f t q u n now =
      ({ success := true,
         message := "Successfully transferred " ++ toString q ++ " units",
         transfer_reference := some (transferReference now) },
       { inventory := updateInvQty db.inventory p f (src.quantity - q) now
           ++ [{ product_id := p, warehouse_id := t, quantity := q,
                 reserved_quantity := 0, reorder_level := src.reorder_level,
                 max_stock_level := src.max_stock_level, last_updated := now }],
         movements := db.movements ++
           [{ product_id := p, warehouse_id := f, movement_type := "TRANSFER_OUT",
              quantity := q, reference_number := transferReference now,
              notes := "Transfer to warehouse " ++ toString t ++ ". " ++ n.getD "",
              user_id := u },
            { product_id := p, warehouse_id := t, movement_type := "TRANSFER_IN",
              quantity := q, reference_number := transferReference now,
              notes := "Transfer from warehouse " ++ toString f ++ ". " ++ n.getD "",
              user_id := u }] }) := by
  have h1 : findInv (updateInvQty db.inventory p f (src.quantity - q) now) p f =
      some { src with quantity := src.quantity - q, last_updated := now } := by
    rw [findInv_update, hsrc]
    simp [Option.map, findInv_some hsrc]
  unfold transfer_inventory
  rw [hsrc]
  dsimp only
  rw [if_neg hge, hdest]
  dsimp only
  rw [h1]

/-- Branch equation: an adjustment on a missing row fails with no writes. -/
theorem adjust_eq_no_record (db : DB) (p w adj : Int) (ty : String) (u : Int)
    (reason : Option String) (now : Nat)
    (h : findInv db.inventory p w = none) :
    adjust_inventory db p w adj ty u reason now =
      ({ success := false, message := "Inventory record not found",
         previous_quantity := none, new_quantity := none,
         reference_number := none }, db) := by
  unfold adjust_inventory
  rw [h]

/-- Branch equation: an adjustment that would drive the quantity negative
fails with no writes. -/
theorem adjust_eq_negative (db : DB) (p w adj : Int) (ty : String) (u : Int)
    (reason : Option String) (now : Nat) (rec : InventoryRecord)
    (h : findInv db.inventory p w = some rec) (hneg : rec.quantity + adj < 0) :
    adjust_inventory db p w adj ty u reason now =
      ({ success := false,
         message := "Adjustment would result in negative inventory. Current: "
           ++ toString rec.quantity ++ ", Adjustment: " ++ toString adj,
         previous_quantity := none, new_quantity := none,
         reference_number := none }, db) := by
  unfold adjust_inventory
  rw [h]
  dsimp only
  rw [if_pos hneg]

/-- Branch equation: a non-negative-result adjustment sets the row's quantity
to `current + adjustment` and appends one `ADJUST_*` movement of magnitude
`abs(adjustment)`. -/
theorem adjust_eq_success (db : DB) (p w adj : Int) (ty : String) (u : Int)
    (reason : Option String) (now : Nat) (rec : InventoryRecord)
    (h : findInv db.inventory p w = some rec) (hpos : ¬rec.quantity + adj < 0) :
    adjust_inventory db p w adj ty u reason now =
      ({ success := true,
         message := "Inventory adjusted successfully. New quantity: "
           ++ toString (rec.quantity + adj),
         previous_quantity := some rec.quantity,
         new_quantity := some (rec.quantity + adj),
         reference_number := some (adjustReference now) },
       { inventory := updateInvQty db.inventory p w (rec.quantity + adj) now,
         movements := db.movements ++
           [{ product_id := p, warehouse_id := w,
              movement_type := "ADJUST_" ++ ty, quantity := |adj|,
              reference_number := adjustReference now,
              notes := pyOr reason (ty ++ " adjustment"), user_id := u }] }) := by
  unfold adjust_inventory
  rw [h]
  dsimp only
  rw [if_neg hpos]

/-- An `UPDATE` rewrites the row its key finds. -/
theorem findInv_update_self {inv : List InventoryRecord} {p w : Int}
    {r : InventoryRecord} (q : Int) (t : Nat) (h : findInv inv p w = some r) :
    findInv (updateInvQty inv p w q t) p w =
      some { r with quantity := q, last_updated := t } := by
  rw [findInv_update, h]
  simp [Option.map, findInv_some h]

/-- An `UPDATE` does not make a missing key appear. -/
theorem findInv_update_none {inv : List InventoryRecord} {p w q : Int} {t : Nat}
    {p' w' : Int} (h : findInv inv p' w' = none) :
    findInv (updateInvQty inv p w q t) p' w' = none := by
  rw [findInv_update, h]
  rfl

/-- An `UPDATE` leaves every other key's row untouched. -/
theorem findInv_update_other {inv : List InventoryRecord} {p w : Int} (q : Int)
    (t : Nat) {p' w' : Int} (hne : ¬(p' = p ∧ w' = w)) :
    findInv (updateInvQty inv p w q t) p' w' = findInv inv p' w' := by
  rw [findInv_update]
  cases hfind : findInv inv p' w' with
  | none => rfl
  | some r =>
    have h1 : r.product_id = p' ∧ r.warehouse_id = w' :=
      invKey_iff.mp (findInv_some hfind)
    have h2 : invKey r p w = false := by
      cases hb : invKey r p w with
      | false => rfl
      | true =>
        have h3 := invKey_iff.mp hb
        exact absurd ⟨h1.1 ▸ h3.1, h1.2 ▸ h3.2⟩ hne
    simp [Option.map, h2]

/-- Reading the key of a one-row table that matches it. -/
theorem findInv_singleton {r : InventoryRecord} {p w : Int}
    (h : invKey r p w = true) : findInv [r] p w = some r :=
  List.find?_cons_of_pos _ h

/-- C1: for a transfer between distinct warehouses whose source row exists
and holds at least the requested quantity, the call succeeds, the source
quantity is decremented by the transferred quantity, the destination
quantity is incremented by it (a missing destination row is created holding
exactly it), and the total held for the product across the two warehouses is
unchanged by the call. -/
theorem transfer_conserves_stock (db : DB) (p f t q u : Int) (n : Option String)
    (now : Nat) (src : InventoryRecord)
    (hft : f ≠ t)
    (hsrc : findInv db.inventory p f = some src)
    (hq : q ≤ src.quantity) :
    (transfer_inventory db p f t q u n now).1.success = true ∧
    qtyAt (transfer_inventory db p f t q u n now).2.inventory p f =
      src.quantity - q ∧
    qtyAt (transfer_inventory db p f t q u n now).2.inventory p t =
      qtyAt db.inventory p t + q ∧
    qtyAt (transfer_inventory db p f t q u n now).2.inventory p f +
      qtyAt (transfer_inventory db p f t q u n now).2.inventory p t =
      qtyAt db.inventory p f + qtyAt db.inventory p t := by
  have hge : ¬src.quantity < q := not_lt.mpr hq
  have hqf : qtyAt db.inventory p f = src.quantity := by rw [qtyAt, hsrc]
  have hfne : ¬(p = p ∧ f = t) := fun hc => hft hc.2
  cases hdest : findInv db.inventory p t with
  | some d =>
    rw [transfer_eq_dest_some db p f t q u n now src d hsrc hge hdest]
    have hinner : findInv (updateInvQty db.inventory p f (src.quantity - q) now) p t =
        some (if invKey d p f then
          { d with quantity := src.quantity - q, last_updated := now } else d) := by
      rw [findInv_update, hdest]
      rfl
    have hA : qtyAt (updateInvQty (updateInvQty db.inventory p f (src.quantity - q) now)
        p t (d.quantity + q) now) p f = src.quantity - q := by
      rw [qtyAt_update_ne _ _ hfne, qtyAt_update_self _ _ hsrc]
    have hB : qtyAt (updateInvQty (updateInvQty db.inventory p f (src.quantity - q) now)
        p t (d.quantity + q) now) p t = d.quantity + q :=
      qtyAt_update_self _ _ hinner
    have hqt : qtyAt db.inventory p t = d.quantity := by rw [qtyAt, hdest]
    refine ⟨rfl, hA, ?_, ?_⟩
    · rw [hB, hqt]
    · rw [hA, hB, hqf, hqt]; ring
  | none =>
    rw [transfer_eq_dest_none db p f t q u n now src hsrc hge hdest]
    have hinv1f : findInv (updateInvQty db.inventory p f (src.quantity - q) now) p f =
        some { src with quantity := src.quantity - q, last_updated := now } :=
      findInv_update_self _ _ hsrc
    have hinv1t : findInv (updateInvQty db.inventory p f (src.quantity - q) now) p t =
        none := findInv_update_none hdest
    have hnew : invKey
        (⟨p, t, q, 0, src.reorder_level, src.max_stock_level, now⟩ : InventoryRecord)
        p t = true := by
      simp [invKey]
    have hA : qtyAt (updateInvQty db.inventory p f (src.quantity - q) now
        ++ [⟨p, t, q, 0, src.reorder_level, src.max_stock_level, now⟩]) p f =
        src.quantity - q := by
      rw [qtyAt, findInv_append, hinv1f]
      rfl
    have hB : qtyAt (updateInvQty db.inventory p f (src.quantity - q) now
        ++ [⟨p, t, q, 0, src.reorder_level, src.max_stock_level, now⟩]) p t =
        q := by
      rw [qtyAt, findInv_append, hinv1t, findInv_singleton hnew]
      rfl
    have hqt : qtyAt db.inventory p t = 0 := by rw [qtyAt, hdest]
    refine ⟨rfl, hA, ?_, ?_⟩
    · rw [hB, hqt]; ring
    · rw [hA, hB, hqf, hqt]; ring

/-- Witness for C1: transferring 4 units of product 1 from warehouse 1
(holding 10) to warehouse 2 (holding 3) succeeds and conserves the total. -/
theorem transfer_conserves_stock_witness :
    (1 : Int) ≠ 2 ∧ findInv wDB.inventory 1 1 = some wSrc ∧
    (4 : Int) ≤ wSrc.quantity ∧
    ((transfer_inventory wDB 1 1 2 4 9 none 7).1.success = true ∧
     qtyAt (transfer_inventory wDB 1 1 2 4 9 none 7).2.inventory 1 1 =
       wSrc.quantity - 4 ∧
     qtyAt (transfer_inventory wDB 1 1 2 4 9 none 7).2.inventory 1 2 =
       qtyAt wDB.inventory 1 2 + 4 ∧
     qtyAt (transfer_inventory wDB 1 1 2 4 9 none 7).2.inventory 1 1 +
       qtyAt (transfer_inventory wDB 1 1 2 4 9 none 7).2.inventory 1 2 =
       qtyAt wDB.inventory 1 1 + qtyAt wDB.inventory 1 2) :=
  ⟨by decide, by decide, by decide,
   transfer_conserves_stock wDB 1 1 2 4 9 none 7 wSrc (by decide) (by decide)
     (by decide)⟩

/-- C3: when the source row exists but holds strictly less than the
requested quantity, the transfer fails, its message reports the available
and requested amounts, and the whole ledger store (both the inventory table
and the stock_movements table) is returned unchanged. -/
theorem transfer_insufficient_no_writes (db : DB) (p f t q u : Int)
    (n : Option String) (now : Nat) (src : InventoryRecord)
    (hsrc : findInv db.inventory p f = some src) (hlt : src.quantity < q) :
    (transfer_inventory db p f t q u n now).1.success = false ∧
    (transfer_inventory db p f t q u n now).1.message =
      "Insufficient inventory. Available: " ++ toString src.quantity
        ++ ", Requested: " ++ toString q ∧
    (transfer_inventory db p f t q u n now).2 = db := by
  rw [transfer_eq_insufficient db p f t q u n now src hsrc hlt]
  exact ⟨rfl, rfl, rfl⟩

/-- Witness for C3: requesting 50 units when the source holds 10 fails with
the reporting message and no writes. -/
theorem transfer_insufficient_no_writes_witness :
    findInv wDB.inventory 1 1 = some wSrc ∧ wSrc.quantity < 50 ∧
    ((transfer_inventory wDB 1 1 2 50 9 none 7).1.success = false ∧
     (transfer_inventory wDB 1 1 2 50 9 none 7).1.message =
       "Insufficient inventory. Available: " ++ toString wSrc.quantity
         ++ ", Requested: " ++ toString (50 : Int) ∧
     (transfer_inventory wDB 1 1 2 50 9 none 7).2 = wDB) :=
  ⟨by decide, by decide,
   transfer_insufficient_no_writes wDB 1 1 2 50 9 none 7 wSrc (by decide) (by decide)⟩

/-- C4: every successful transfer appends to the movement log exactly the
pair of rows — one TRANSFER_OUT at the source warehouse and one TRANSFER_IN
at the destination warehouse, both of the transferred quantity and both
carrying the one reference number generated for this call — and nothing
else. -/
theorem transfer_movement_pair (db : DB) (p f t q u : Int) (n : Option String)
    (now : Nat)
    (hsucc : (transfer_inventory db p f t q u n now).1.success = true) :
    (transfer_inventory db p f t q u n now).2.movements =
      db.movements ++
        [{ product_id := p, warehouse_id := f, movement_type := "TRANSFER_OUT",
           quantity := q, reference_number := transferReference now,
           notes := "Transfer to warehouse " ++ toString t ++ ". " ++ n.getD "",
           user_id := u },
         { product_id := p, warehouse_id := t, movement_type := "TRANSFER_IN",
           quantity := q, reference_number := transferReference now,
           notes := "Transfer from warehouse " ++ toString f ++ ". " ++ n.getD "",
           user_id := u }] := by
  cases hsrc : findInv db.inventory p f with
  | none =>
    rw [transfer_eq_no_source db p f t q u n now hsrc] at hsucc
    simp at hsucc
  | some src =>
    by_cases hlt : src.quantity < q
    · rw [transfer_eq_insufficient db p f t q u n now src hsrc hlt] at hsucc
      simp at hsucc
    · cases hdest : findInv db.inventory p t with
      | some d => rw [transfer_eq_dest_some db p f t q u n now src d hsrc hlt hdest]
      | none => rw [transfer_eq_dest_none db p f t q u n now src hsrc hlt hdest]

/-- Witness for C4 at the concrete ledger: the successful 4-unit transfer
appends exactly its TRANSFER_OUT/TRANSFER_IN pair. -/
theorem transfer_movement_pair_witness :
    (transfer_inventory wDB 1 1 2 4 9 none 7).1.success = true ∧
    (transfer_inventory wDB 1 1 2 4 9 none 7).2.movements =
      wDB.movements ++
        [{ product_id := 1, warehouse_id := 1, movement_type := "TRANSFER_OUT",
           quantity := 4, reference_number := transferReference 7,
           notes := "Transfer to warehouse " ++ toString (2 : Int) ++ ". "
             ++ (none : Option String).getD "",
           user_id := 9 },
         { product_id := 1, warehouse_id := 2, movement_type := "TRANSFER_IN",
           quantity := 4, reference_number := transferReference 7,
           notes := "Transfer from warehouse " ++ toString (1 : Int) ++ ". "
             ++ (none : Option String).getD "",
           user_id := 9 }] :=
  ⟨by decide, transfer_movement_pair wDB 1 1 2 4 9 none 7 (by decide)⟩

/-- C5: an adjustment on the key of an existing row fails with no writes
when it would drive the quantity negative; otherwise it succeeds, the row's
quantity becomes exactly the previous quantity plus the delta, the result
reports the previous and new quantities, and exactly one movement of kind
`ADJUST_{type}` with magnitude `abs(delta)` is appended. -/
theorem adjust_inventory_spec (db : DB) (p w adj : Int) (ty : String) (u : Int)
    (reason : Option String) (now : Nat) (rec : InventoryRecord)
    (hrec : findInv db.inventory p w = some rec) :
    (rec.quantity + adj < 0 →
      (adjust_inventory db p w adj ty u reason now).1.success = false ∧
      (adjust_inventory db p w adj ty u reason now).2 = db) ∧
    (0 ≤ rec.quantity + adj →
      (adjust_inventory db p w adj ty u reason now).1.success = true ∧
      (adjust_inventory db p w adj ty u reason now).1.previous_quantity =
        some rec.quantity ∧
      (adjust_inventory db p w adj ty u reason now).1.new_quantity =
        some (rec.quantity + adj) ∧
      qtyAt (adjust_inventory db p w adj ty u reason now).2.inventory p w =
        rec.quantity + adj ∧
      (adjust_inventory db p w adj ty u reason now).2.movements =
        db.movements ++
          [{ product_id := p, warehouse_id := w,
             movement_type := "ADJUST_" ++ ty, quantity := |adj|,
             reference_number := adjustReference now,
             notes := pyOr reason (ty ++ " adjustment"), user_id := u }]) := by
  constructor
  · intro hneg
    rw [adjust_eq_negative db p w adj ty u reason now rec hrec hneg]
    exact ⟨rfl, rfl⟩
  · intro hpos
    have hnneg : ¬rec.quantity + adj < 0 := not_lt.mpr hpos
    rw [adjust_eq_success db p w adj ty u reason now rec hrec hnneg]
    refine ⟨rfl, rfl, rfl, ?_, rfl⟩
    exact qtyAt_update_self _ _ hrec

/-- Witness for C5: adjusting the 10-unit row by -4 succeeds with new
quantity 6 and one ADJUST_DAMAGE movement of magnitude 4, while adjusting by
-11 fails with no writes. -/
theorem adjust_inventory_spec_witness :
    findInv wDB.inventory 1 1 = some wSrc ∧
    ((wSrc.quantity + (-4) < 0 →
      (adjust_inventory wDB 1 1 (-4) "DAMAGE" 9 none 7).1.success = false ∧
      (adjust_inventory wDB 1 1 (-4) "DAMAGE" 9 none 7).2 = wDB) ∧
     (0 ≤ wSrc.quantity + (-4) →
      (adjust_inventory wDB 1 1 (-4) "DAMAGE" 9 none 7).1.success = true ∧
      (adjust_inventory wDB 1 1 (-4) "DAMAGE" 9 none 7).1.previous_quantity =
        some wSrc.quantity ∧
      (adjust_inventory wDB 1 1 (-4) "DAMAGE" 9 none 7).1.new_quantity =
        some (wSrc.quantity + (-4)) ∧
      qtyAt (adjust_inventory wDB 1 1 (-4) "DAMAGE" 9 none 7).2.inventory 1 1 =
        wSrc.quantity + (-4) ∧
      (adjust_inventory wDB 1 1 (-4) "DAMAGE" 9 none 7).2.movements =
        wDB.movements ++
          [{ product_id := 1, warehouse_id := 1,
             movement_type := "ADJUST_" ++ "DAMAGE", quantity := |(-4 : Int)|,
             reference_number := adjustReference 7,
             notes := pyOr none ("DAMAGE" ++ " adjustment"), user_id := 9 }])) :=
  ⟨by decide, adjust_inventory_spec wDB 1 1 (-4) "DAMAGE" 9 none 7 wSrc (by decide)⟩

/-- Reflexivity of the untouched-columns relation. -/
theorem sameKeyFields_refl (a : InventoryRecord) : sameKeyFields a a :=
  ⟨rfl, rfl, rfl, rfl, rfl⟩

/-- Transitivity of the untouched-columns relation. -/
theorem sameKeyFields_trans {a b c : InventoryRecord}
    (h1 : sameKeyFields a b) (h2 : sameKeyFields b c) : sameKeyFields a c :=
  ⟨h1.1.trans h2.1, h1.2.1.trans h2.2.1, h1.2.2.1.trans h2.2.2.1,
   h1.2.2.2.1.trans h2.2.2.2.1, h1.2.2.2.2.trans h2.2.2.2.2⟩

/-- An `UPDATE` keeps the number of rows. -/
theorem updateInvQty_length (inv : List InventoryRecord) (p w q : Int) (t : Nat) :
    (updateInvQty inv p w q t).length = inv.length := by
  rw [updateInvQty, List.length_map]

/-- An `UPDATE` leaves every column of every row other than `quantity` and
`last_updated` exactly as it was, row by row. -/
theorem sameKeyFields_update (inv : List InventoryRecord) (p w q : Int) (t : Nat)
    (i : Nat) (h : i < inv.length)
    (h' : i < (updateInvQty inv p w q t).length) :
    sameKeyFields ((updateInvQty inv p w q t).get ⟨i, h'⟩) (inv.get ⟨i, h⟩) := by
  simp only [updateInvQty, List.get_eq_getElem, List.getElem_map]
  by_cases hk : invKey inv[i] p w
  · rw [if_pos hk]
    exact ⟨rfl, rfl, rfl, rfl, rfl⟩
  · rw [if_neg hk]
    exact sameKeyFields_refl _

/-- C6: a transfer call — successful or not — never removes a pre-existing
inventory row and never changes any such row's key, reserved_quantity,
reorder_level, or max_stock_level: only quantity and last_updated can move.
In particular (concrete conjunct) a transfer can succeed while driving the
source row's quantity strictly below its reserved_quantity, leaving a
negative available figure. -/
theorem transfer_frame_reserved (db : DB) (p f t q u : Int) (n : Option String)
    (now : Nat) :
    (db.inventory.length ≤
       (transfer_inventory db p f t q u n now).2.inventory.length ∧
     ∀ i (h : i < db.inventory.length)
       (h' : i < (transfer_inventory db p f t q u n now).2.inventory.length),
       sameKeyFields
         ((transfer_inventory db p f t q u n now).2.inventory.get ⟨i, h'⟩)
         (db.inventory.get ⟨i, h⟩)) ∧
    ((transfer_inventory wDB 1 1 2 5 9 none 7).1.success = true ∧
     qtyAt (transfer_inventory wDB 1 1 2 5 9 none 7).2.inventory 1 1 <
       wSrc.reserved_quantity) := by
  constructor
  · cases hsrc : findInv db.inventory p f with
    | none =>
      rw [transfer_eq_no_source db p f t q u n now hsrc]
      exact ⟨le_refl _, fun i h h' => sameKeyFields_refl _⟩
    | some src =>
      by_cases hlt : src.quantity < q
      · rw [transfer_eq_insufficient db p f t q u n now src hsrc hlt]
        exact ⟨le_refl _, fun i h h' => sameKeyFields_refl _⟩
      · cases hdest : findInv db.inventory p t with
        | some d =>
          rw [transfer_eq_dest_some db p f t q u n now src d hsrc hlt hdest]
          constructor
          · rw [updateInvQty_length, updateInvQty_length]
          · intro i h h'
            have h1 : i < (updateInvQty db.inventory p f (src.quantity - q)
                now).length := by
              rw [updateInvQty_length]
              exact h
            exact sameKeyFields_trans
              (sameKeyFields_update _ _ _ _ _ i h1 h')
              (sameKeyFields_update _ _ _ _ _ i h h1)
        | none =>
          rw [transfer_eq_dest_none db p f t q u n now src hsrc hlt hdest]
          constructor
          · rw [List.length_append, updateInvQty_length]
            exact Nat.le_add_right _ _
          · intro i h h'
            have h1 : i < (updateInvQty db.inventory p f (src.quantity - q)
                now).length := by
              rw [updateInvQty_length]
              exact h
            have hget : ((updateInvQty db.inventory p f (src.quantity - q) now)
                ++ [(⟨p, t, q, 0, src.reorder_level, src.max_stock_level, now⟩ :
                      InventoryRecord)]).get ⟨i, h'⟩ =
                (updateInvQty db.inventory p f (src.quantity - q) now).get
                  ⟨i, h1⟩ := by
              simp only [List.get_eq_getElem]
              rw [List.getElem_append i h', dif_pos h1]
            rw [hget]
            exact sameKeyFields_update _ _ _ _ _ i h h1
  · exact ⟨by decide, by decide⟩

/-- Witness for C6 at the concrete ledger and row index 0. -/
theorem transfer_frame_reserved_witness :
    0 < wDB.inventory.length ∧
    0 < (transfer_inventory wDB 1 1 2 5 9 none 7).2.inventory.length ∧
    sameKeyFields
      ((transfer_inventory wDB 1 1 2 5 9 none 7).2.inventory.get ⟨0, by decide⟩)
      (wDB.inventory.get ⟨0, by decide⟩) :=
  ⟨by decide, by decide,
   (transfer_frame_reserved wDB 1 1 2 5 9 none 7).1.2 0 (by decide) (by decide)⟩

/-- C9: a transfer whose source and destination warehouses coincide, on an
existing row holding at least the requested quantity, succeeds and leaves
that single row's quantity increased by the transferred amount: the
destination quantity is read before the source decrement is applied, and
the destination update then overwrites the decrement. -/
theorem transfer_same_warehouse_gain (db : DB) (p f q u : Int)
    (n : Option String) (now : Nat) (src : InventoryRecord)
    (hsrc : findInv db.inventory p f = some src) (hq : q ≤ src.quantity) :
    (transfer_inventory db p f f q u n now).1.success = true ∧
    qtyAt (transfer_inventory db p f f q u n now).2.inventory p f =
      src.quantity + q := by
  have hge : ¬src.quantity < q := not_lt.mpr hq
  rw [transfer_eq_dest_some db p f f q u n now src src hsrc hge hsrc]
  refine ⟨rfl, ?_⟩
  exact qtyAt_update_self _ _ (findInv_update_self _ _ hsrc)

/-- Witness for C9: a same-warehouse transfer of 4 units on the 10-unit row
succeeds and leaves the row at 14. -/
theorem transfer_same_warehouse_gain_witness :
    findInv wDB.inventory 1 1 = some wSrc ∧ (4 : Int) ≤ wSrc.quantity ∧
    ((transfer_inventory wDB 1 1 1 4 9 none 7).1.success = true ∧
     qtyAt (transfer_inventory wDB 1 1 1 4 9 none 7).2.inventory 1 1 =
       wSrc.quantity + 4) :=
  ⟨by decide, by decide,
   transfer_same_warehouse_gain wDB 1 1 4 9 none 7 wSrc (by decide) (by decide)⟩

/-- Counterexample to C10 as stated: the claim quantifies over every input
with `quantity <= 0` and an existing source row with enough stock, and
asserts the source ends at `sourceQuantity - quantity`.  At product 1,
source and destination both warehouse 1, quantity -5, source quantity 10
(10 ≥ -5): the call does succeed, but the row ends at 5, not
10 - (-5) = 15, because the destination update overwrites the source
decrement when the warehouses coincide. -/
theorem transfer_nonpositive_cex :
    (-5 : Int) ≤ 0 ∧ findInv wDB.inventory 1 1 = some wSrc ∧
    (-5 : Int) ≤ wSrc.quantity ∧
    (transfer_inventory wDB 1 1 1 (-5) 9 none 7).1.success = true ∧
    qtyAt (transfer_inventory wDB 1 1 1 (-5) 9 none 7).2.inventory 1 1 ≠
      wSrc.quantity - (-5) := by
  decide

/-- C10 (amended with distinct warehouses): the transfer protocol never
validates `quantity > 0`.  For distinct warehouses, any quantity ≤ 0 whose
source row exists with sourceQuantity ≥ quantity passes the stock check and
succeeds: the source is left at `sourceQuantity - quantity` (a net
increase), the destination gains `quantity` (created holding that
non-positive quantity if absent), and the two movement rows are recorded
with that non-positive quantity. -/
theorem transfer_nonpositive_spec (db : DB) (p f t q u : Int)
    (n : Option String) (now : Nat) (src : InventoryRecord)
    (hft : f ≠ t) (_hq0 : q ≤ 0)
    (hsrc : findInv db.inventory p f = some src) (hq : q ≤ src.quantity) :
    (transfer_inventory db p f t q u n now).1.success = true ∧
    qtyAt (transfer_inventory db p f t q u n now).2.inventory p f =
      src.quantity - q ∧
    qtyAt (transfer_inventory db p f t q u n now).2.inventory p t =
      qtyAt db.inventory p t + q ∧
    (transfer_inventory db p f t q u n now).2.movements =
      db.movements ++
        [{ product_id := p, warehouse_id := f, movement_type := "TRANSFER_OUT",
           quantity := q, reference_number := transferReference now,
           notes := "Transfer to warehouse " ++ toString t ++ ". " ++ n.getD "",
           user_id := u },
         { product_id := p, warehouse_id := t, movement_type := "TRANSFER_IN",
           quantity := q, reference_number := transferReference now,
           notes := "Transfer from warehouse " ++ toString f ++ ". " ++ n.getD "",
           user_id := u }] := by
  have hge : ¬src.quantity < q := not_lt.mpr hq
  have hfne : ¬(p = p ∧ f = t) := fun hc => hft hc.2
  cases hdest : findInv db.inventory p t with
  | some d =>
    rw [transfer_eq_dest_some db p f t q u n now src d hsrc hge hdest]
    have hinner : findInv (updateInvQty db.inventory p f (src.quantity - q) now)
        p t = some (if invKey d p f then
          { d with quantity := src.quantity - q, last_updated := now } else d) := by
      rw [findInv_update, hdest]
      rfl
    refine ⟨rfl, ?_, ?_, rfl⟩
    · rw [qtyAt_update_ne _ _ hfne, qtyAt_update_self _ _ hsrc]
    · rw [qtyAt_update_self _ _ hinner, qtyAt, hdest]
  | none =>
    rw [transfer_eq_dest_none db p f t q u n now src hsrc hge hdest]
    have hnew : invKey
        (⟨p, t, q, 0, src.reorder_level, src.max_stock_level, now⟩ :
          InventoryRecord) p t = true := by
      simp [invKey]
    refine ⟨rfl, ?_, ?_, rfl⟩
    · rw [qtyAt, findInv_append, findInv_update_self _ _ hsrc]
      rfl
    · rw [qtyAt, findInv_append, findInv_update_none hdest,
        findInv_singleton hnew, qtyAt, hdest]
      simp [Option.or]

/-- Witness for the amended C10: transferring -5 units of product 1 from
warehouse 1 (holding 10) to the absent warehouse 3 succeeds, raises the
source to 15, creates the destination holding -5, and records the pair with
quantity -5. -/
theorem transfer_nonpositive_spec_witness :
    (1 : Int) ≠ 3 ∧ (-5 : Int) ≤ 0 ∧ findInv wDB.inventory 1 1 = some wSrc ∧
    (-5 : Int) ≤ wSrc.quantity ∧
    ((transfer_inventory wDB 1 1 3 (-5) 9 none 7).1.success = true ∧
     qtyAt (transfer_inventory wDB 1 1 3 (-5) 9 none 7).2.inventory 1 1 =
       wSrc.quantity - (-5) ∧
     qtyAt (transfer_inventory wDB 1 1 3 (-5) 9 none 7).2.inventory 1 3 =
       qtyAt wDB.inventory 1 3 + (-5) ∧
     (transfer_inventory wDB 1 1 3 (-5) 9 none 7).2.movements =
       wDB.movements ++
         [{ product_id := 1, warehouse_id := 1, movement_type := "TRANSFER_OUT",
            quantity := -5, reference_number := transferReference 7,
            notes := "Transfer to warehouse " ++ toString (3 : Int) ++ ". "
              ++ (none : Option String).getD "",
            user_id := 9 },
          { product_id := 1, warehouse_id := 3, movement_type := "TRANSFER_IN",
            quantity := -5, reference_number := transferReference 7,
            notes := "Transfer from warehouse " ++ toString (1 : Int) ++ ". "
              ++ (none : Option String).getD "",
            user_id := 9 }]) :=
  ⟨by decide, by decide, by decide, by decide,
   transfer_nonpositive_spec wDB 1 1 3 (-5) 9 none 7 wSrc (by decide) (by decide)
     (by decide) (by decide)⟩

/-- C7: `predict_demand` returns the default fallback (predicted 10,
confidence 0.3, method default_fallback) whenever fewer than 7 historical
movements exist before filtering, and the no-outbound fallback (predicted 5,
confidence 0.4, method no_outbound_data) whenever at least 7 exist but none
is of an outbound kind (OUT or TRANSFER_OUT). -/
theorem predict_demand_fallbacks (hist : List HistRow) (days : ℚ) :
    (hist.length < 7 →
      predict_demand hist days =
        Prediction.fallback 10 (3 / 10) "default_fallback"
          "Insufficient historical data") ∧
    (7 ≤ hist.length →
      (∀ r ∈ hist, r.movement_type ≠ "OUT" ∧ r.movement_type ≠ "TRANSFER_OUT") →
      predict_demand hist days =
        Prediction.fallback 5 (2 / 5) "no_outbound_data"
          "No outbound movement data available") := by
  constructor
  · intro h
    unfold predict_demand
    rw [if_pos h]
  · intro h7 hno
    have hlt : ¬hist.length < 7 := not_lt.mpr h7
    have hfilter : hist.filter (fun r =>
        r.movement_type == "OUT" || r.movement_type == "TRANSFER_OUT") = [] := by
      rw [List.filter_eq_nil_iff]
      intro r hr
      have hn := hno r hr
      simp [hn.1, hn.2]
    have hempty : dailyMovements hist = [] := by
      rw [dailyMovements, hfilter]
      rfl
    unfold predict_demand
    rw [if_neg hlt]
    dsimp only
    rw [hempty]
    rfl

/-- Witness for C7: an empty history takes the default fallback; seven
inbound-only movements take the no-outbound fallback. -/
theorem predict_demand_fallbacks_witness :
    ([] : List HistRow).length < 7 ∧
    predict_demand [] 30 =
      Prediction.fallback 10 (3 / 10) "default_fallback"
        "Insufficient historical data" ∧
    7 ≤ histIn.length ∧
    (∀ r ∈ histIn, r.movement_type ≠ "OUT" ∧ r.movement_type ≠ "TRANSFER_OUT") ∧
    predict_demand histIn 30 =
      Prediction.fallback 5 (2 / 5) "no_outbound_data"
        "No outbound movement data available" :=
  ⟨by decide, (predict_demand_fallbacks [] 30).1 (by decide), by decide, by decide,
   (predict_demand_fallbacks histIn 30).2 (by decide) (by decide)⟩

/-- C2, the code evaluated at the divergence input: fourteen outbound
movements, newest first — the seven most recent moved 10 units each, the
seven oldest 1 unit each.  The mean of the seven most recent outbound
quantities is 10, so the claim's recentAvg-of-the-most-recent-seven reading
demands `0.7*10 + 0.3*5.5 = 8.65` per day and 259.5 over 30 days; the code
instead slices `daily_movements[-7:]` out of the newest-first sequence —
the seven OLDEST movements, mean 1 — and returns `0.7*1 + 0.3*5.5 = 2.35`
per day, 70.5 over 30 days. -/
theorem predict_demand_recent_is_oldest :
    predict_demand histBug 30 =
      Prediction.moving_average (141 / 2) (47 / 20) (81 / 4) 14 ∧
    mean ((dailyMovements histBug).take 7) = 10 ∧
    pyRound2 ((10 * (7 / 10) + mean (dailyMovements histBug) * (3 / 10)) * 30) =
      519 / 2 ∧
    (141 / 2 : ℚ) ≠ 519 / 2 := by
  have hd : dailyMovements histBug =
      [10, 10, 10, 10, 10, 10, 10, 1, 1, 1, 1, 1, 1, 1] := by
    norm_num [histBug, dailyMovements, List.replicate]
  have hlen : ¬histBug.length < 7 := by
    norm_num [histBug, List.replicate]
  refine ⟨?_, ?_, ?_, by norm_num⟩
  · unfold predict_demand
    rw [if_neg hlen, hd]
    norm_num [mean, popVariance, pyRound2, pyRoundHalfEven]
  · rw [hd]
    norm_num [mean]
  · rw [hd]
    norm_num [mean, pyRound2, pyRoundHalfEven]

/-- Counterexample to C8 as stated: the claim's example (quantity 12,
reserved 0, reorder level 20, max level 200) does yield a recommendation of
round(200*0.8 - 12) = 148 units, but with urgency "medium", not HIGH: the
claim's own general rule makes HIGH require available ≤ 0.5*reorder_level,
and 12 > 10.  (`histFlat` gives the example's predicted 30-day demand 90.) -/
theorem reorder_example_not_high :
    get_reorder_recommendation 12 0 20 200 histFlat =
      Reorder.reorder 148 12 12 90 18 "medium"
        ("Reorder recommended: stock level is " ++ toString (12 : Int)
          ++ ", below reorder level of " ++ toString (20 : Int)) ∧
    ("medium" : String) ≠ "high" := by
  constructor
  · have hd : dailyMovements histFlat = [3, 3, 3, 3, 3, 3, 3] := by
      norm_num [histFlat, dailyMovements, List.replicate]
    have hp : predict_demand histFlat 30 = Prediction.moving_average 90 3 0 7 := by
      unfold predict_demand
      rw [if_neg (by norm_num [histFlat, List.replicate]), hd]
      norm_num [mean, popVariance, pyRound2, pyRoundHalfEven]
    unfold get_reorder_recommendation
    rw [hp]
    rw [if_pos (by norm_num)]
    norm_num [predictedOf, pyRoundHalfEven]
  · decide

/-- C8 (amended): with available = quantity - reserved_quantity, whenever
available ≤ reorder_level the recommendation is to reorder
round(max_stock_level*0.8 - available) units, with urgency "high" exactly
when available ≤ 0.5*reorder_level and "medium" otherwise; at the example
(quantity 12, reserved 0, reorder_level 20, max_stock_level 200) this yields
recommended 148 with urgency MEDIUM, since available 12 exceeds
0.5*20 = 10. -/
theorem reorder_recommendation_spec
    (current_qty reserved_qty reorder_level max_level : Int)
    (hist : List HistRow)
    (h : current_qty - reserved_qty ≤ reorder_level) :
    get_reorder_recommendation current_qty reserved_qty reorder_level max_level
        hist =
      Reorder.reorder
        (pyRoundHalfEven ((max_level : ℚ) * (4 / 5) -
          ((current_qty - reserved_qty : Int) : ℚ)))
        current_qty (current_qty - reserved_qty)
        (pyRoundHalfEven (predictedOf (predict_demand hist 30)))
        (pyRoundHalfEven (predictedOf (predict_demand hist 30) * (1 / 5)))
        (if ((current_qty - reserved_qty : Int) : ℚ) ≤
            (reorder_level : ℚ) * (1 / 2) then "high" else "medium")
        ("Reorder recommended: stock level is "
          ++ toString (current_qty - reserved_qty)
          ++ ", below reorder level of " ++ toString reorder_level) := by
  unfold get_reorder_recommendation
  rw [if_pos h]

/-- Witness for the amended C8 at the spec's example figures: recommended
quantity 148, urgency medium. -/
theorem reorder_recommendation_spec_witness :
    (12 : Int) - 0 ≤ 20 ∧
    get_reorder_recommendation 12 0 20 200 histFlat =
      Reorder.reorder 148 12 12 90 18 "medium"
        ("Reorder recommended: stock level is " ++ toString ((12 : Int) - 0)
          ++ ", below reorder level of " ++ toString (20 : Int)) := by
  refine ⟨by decide, ?_⟩
  rw [reorder_recommendation_spec 12 0 20 200 histFlat (by decide)]
  have hd : dailyMovements histFlat = [3, 3, 3, 3, 3, 3, 3] := by
    norm_num [histFlat, dailyMovements, List.replicate]
  have hp : predict_demand histFlat 30 = Prediction.moving_average 90 3 0 7 := by
    unfold predict_demand
    rw [if_neg (by norm_num [histFlat, List.replicate]), hd]
    norm_num [mean, popVariance, pyRound2, pyRoundHalfEven]
  rw [hp]
  norm_num [predictedOf, pyRoundHalfEven]
